import Mathlib

/-!
Verification development for the GuardDuty wrapper module
(`aws_security_mcp/tools/wrappers/guardduty_wrapper.py`).

The module consists of two functions:

* `guardduty_security_operations(operation, session_context=None, **params)`:
  normalizes a loosely-typed parameter bag, validates required parameters per
  operation, dispatches to one of six collaborator functions imported from
  `guardduty_tools`, and serializes results or errors as JSON text.
* `discover_guardduty_operations()`: returns a static JSON catalog of the
  six operations.

The embedding below mirrors the Python source.  Python/JSON values are
modelled by the inductive `Value`; a `dict` is an insertion-ordered
association list with unique keys, which is all the source relies on.  The
six collaborator functions and `json.loads` are external to this module
(imported from other modules / the standard library), so the dispatcher is
parameterized over them; a collaborator either returns text or raises, which
is modelled as `Except PyExn String`.  Return paths of the dispatcher are
modelled as `Output`: `Output.raw s` is `return <collaborator text>`
(passthrough) and `Output.dumped v` is `return json.dumps(v)`.  An uncaught
Python exception escaping the function is `Except.error` at the top level.
-/

set_option autoImplicit false

namespace GuardDutyWrapper

/-- Python/JSON values as used by the wrapper: strings, integers, booleans,
`None`/`null`, lists, and insertion-ordered string-keyed dicts. -/
inductive Value where
  | str (s : String)
  | int (n : Int)
  | bool (b : Bool)
  | null
  | list (l : List Value)
  | dict (l : List (String × Value))

/-- Python truthiness (`bool(v)`): empty strings, zero, `False`, `None`, and
empty containers are falsy, everything else is truthy. -/
def Value.truthy : Value → Bool
  | .str s => !s.isEmpty
  | .int n => n != 0
  | .bool b => b
  | .null => false
  | .list l => !l.isEmpty
  | .dict l => !l.isEmpty

/-- `v.isDict` is true exactly when the value is a mapping
(`isinstance(v, dict)`). -/
def Value.isDict : Value → Bool
  | .dict _ => true
  | _ => false

/-- A Python `**params` keyword-argument bag: a string-keyed dict. -/
abbrev Params := List (String × Value)

/-- `d.get(k)` as an `Option`: the value at the first matching key. -/
def dget (d : Params) (k : String) : Option Value :=
  (d.find? (fun p => p.1 == k)).map (·.2)

/-- `k in d` (Python membership test on a dict). -/
def dcontains (d : Params) (k : String) : Bool :=
  (dget d k).isSome

/-- `d.get(k, default)` (Python `dict.get` with a default). -/
def dgetD (d : Params) (k : String) (v : Value) : Value :=
  (dget d k).getD v

/-- `d[k] = v`: replace the value at an existing key in place, otherwise
append the new binding (Python 3.7+ insertion-order semantics). -/
def dset (d : Params) (k : String) (v : Value) : Params :=
  if dcontains d k then
    d.map (fun p => if p.1 == k then (k, v) else p)
  else
    d ++ [(k, v)]

/-- `d.update(other)` for a mapping `other`: set each of `other`'s bindings
in order. -/
def dupdate (d : Params) (other : Params) : Params :=
  other.foldl (fun acc p => dset acc p.1 p.2) d

/-- `del d[k]` (on dicts with unique keys, dropping every binding of `k`). -/
def derase (d : Params) (k : String) : Params :=
  d.filter (fun p => p.1 != k)

/-- Field access on a JSON object value (`v[k]` when `v` is a dict). -/
def Value.field : Value → String → Option Value
  | .dict d, k => dget d k
  | _, _ => Option.none

/-- A raised Python exception, reduced to what the wrapper observes:
`type(e).__name__` and `str(e)`. -/
structure PyExn where
  name : String
  msg : String

/-- The six collaborator functions imported from
`aws_security_mcp.tools.guardduty_tools`.  Each takes the keyword arguments
the wrapper passes it plus `session_context`, and either returns text or
raises.  Their implementations live outside this module, so the dispatcher
is parameterized over this record. -/
structure Collaborators where
  list_detectors : (max_results : Value) → (session_context : Option String) →
    Except PyExn String
  list_findings : (detector_id : Value) → (max_results : Value) →
    (finding_ids : Value) → (severity : Value) → (search_term : Value) →
    (session_context : Option String) → Except PyExn String
  get_finding_details : (detector_id : Value) → (finding_id : Value) →
    (session_context : Option String) → Except PyExn String
  list_ip_sets : (detector_id : Value) → (max_results : Value) →
    (session_context : Option String) → Except PyExn String
  list_threat_intel_sets : (detector_id : Value) → (max_results : Value) →
    (session_context : Option String) → Except PyExn String
  get_findings_statistics : (detector_id : Value) →
    (finding_statistic_types : Value) → (group_by : Value) →
    (finding_criteria : Value) → (order_by : Value) → (max_results : Value) →
    (session_context : Option String) → Except PyExn String

/-- A value returned (as text) by the wrapper: either a collaborator's
return value passed through unmodified (`return await _f(...)`), or a
structure serialized by the wrapper itself (`return json.dumps(obj)`). -/
inductive Output where
  | raw (s : String)
  | dumped (v : Value)

/-- Python `repr` of a list of strings, as interpolated by the f-string
`f"Missing required parameters: {missing_params}"`. -/
def pyStrListRepr (l : List String) : String :=
  "[" ++ String.intercalate ", " (l.map (fun s => "\x27" ++ s ++ "\x27")) ++ "]"

/-- The `available_operations` list of the unknown-operation error branch
(source lines 231-238). -/
def availableOperations : List String :=
  ["list_detectors", "list_findings", "get_finding_details", "list_ip_sets",
   "list_threat_intel_sets", "get_findings_statistics"]

/-- The `usage_examples` dict of the unknown-operation error branch (source
lines 243-248): it holds examples for four of the six operations. -/
def usageExamples : List (String × Value) :=
  [("list_detectors", .str "operation=\x27list_detectors\x27"),
   ("list_findings",
    .str "operation=\x27list_findings\x27, detector_id=\x27detector-id\x27, severity=\x27HIGH\x27"),
   ("get_finding_details",
    .str "operation=\x27get_finding_details\x27, detector_id=\x27detector-id\x27, finding_id=\x27finding-id\x27"),
   ("get_findings_statistics",
    .str "operation=\x27get_findings_statistics\x27, detector_id=\x27detector-id\x27, finding_statistic_types=[\x27COUNT_BY_SEVERITY\x27]")]

/-- Error object returned for an unknown operation (source lines 240-249). -/
def unknownOperationError (operation : String) : Value :=
  .dict [("error", .str ("Unknown operation: " ++ operation)),
         ("available_operations", .list (availableOperations.map .str)),
         ("usage_examples", .dict usageExamples)]

/-- Error object when `detector_id` is missing for `list_findings`
(source lines 117-120). -/
def listFindingsDetectorError : Value :=
  .dict [("error", .str "detector_id is required for list_findings operation"),
         ("usage", .str "operation=\x27list_findings\x27, detector_id=\x27your-detector-id\x27")]

/-- Error object when required parameters are missing for
`get_finding_details` (source lines 144-147). -/
def getFindingDetailsMissingError (missing_params : List String) : Value :=
  .dict [("error", .str ("Missing required parameters: " ++ pyStrListRepr missing_params)),
         ("usage", .str "operation=\x27get_finding_details\x27, detector_id=\x27detector-id\x27, finding_id=\x27finding-id\x27")]

/-- Error object when `detector_id` is missing for `list_ip_sets`
(source lines 160-163). -/
def listIpSetsDetectorError : Value :=
  .dict [("error", .str "detector_id is required for list_ip_sets operation"),
         ("usage", .str "operation=\x27list_ip_sets\x27, detector_id=\x27your-detector-id\x27")]

/-- Error object when `detector_id` is missing for `list_threat_intel_sets`
(source lines 176-179). -/
def listThreatIntelSetsDetectorError : Value :=
  .dict [("error", .str "detector_id is required for list_threat_intel_sets operation"),
         ("usage", .str "operation=\x27list_threat_intel_sets\x27, detector_id=\x27your-detector-id\x27")]

/-- The usage hint shared by the three `get_findings_statistics` validation
errors (source lines 195, 205, 211). -/
def statsUsageHint : String :=
  "operation=\x27get_findings_statistics\x27, detector_id=\x27detector-id\x27, finding_statistic_types=[\x27COUNT_BY_SEVERITY\x27] OR group_by=\x27FINDING_TYPE\x27"

/-- Error object when `detector_id` is missing for
`get_findings_statistics` (source lines 193-196). -/
def statsDetectorError : Value :=
  .dict [("error", .str "detector_id is required for get_findings_statistics operation"),
         ("usage", .str statsUsageHint)]

/-- Error object when neither `finding_statistic_types` nor `group_by` is
truthy (source lines 203-206). -/
def statsNeitherError : Value :=
  .dict [("error", .str "Either finding_statistic_types or group_by parameter is required"),
         ("usage", .str statsUsageHint)]

/-- Error object when both `finding_statistic_types` and `group_by` are
truthy (source lines 209-212). -/
def statsBothError : Value :=
  .dict [("error", .str "Cannot provide both finding_statistic_types and group_by parameters"),
         ("usage", .str statsUsageHint)]

/-- Error object built by the catch-all `except Exception` handler (source
lines 255-262): message, exception type name, operation, and the
(already-normalized) parameter bag. -/
def executionError (operation : String) (e : PyExn) (params : Params) : Value :=
  .dict [("error", .dict
    [("message", .str ("Error executing GuardDuty operation \x27" ++ operation ++ "\x27: " ++ e.msg)),
     ("type", .str e.name),
     ("operation", .str operation),
     ("parameters", .dict params)])]

/-- Error object returned when the nested `params` string is not valid JSON
(source lines 102-107). -/
def jsonDecodeError (msg : String) : Value :=
  .dict [("error", .dict
    [("message", .str ("Invalid JSON in params: " ++ msg)),
     ("type", .str "JSONDecodeError")])]

/-- The body of the `try:` block of `guardduty_security_operations` (source
lines 110-249): select the branch by exact string comparison on
`operation`, validate required parameters, and call the matching
collaborator.  `Except.error` is a raised-and-not-yet-caught exception
(a collaborator fault, or `KeyError` from a dict subscript — the latter
cannot actually occur because every subscript is guarded by a membership
check). -/
def runOperation (c : Collaborators) (operation : String)
    (session_context : Option String) (params : Params) : Except PyExn Output :=
  if operation == "list_detectors" then
    let max_results := dgetD params "max_results" (.int 100)
    (c.list_detectors max_results session_context).map .raw
  else if operation == "list_findings" then
    match dget params "detector_id" with
    | Option.none => .ok (.dumped listFindingsDetectorError)
    | some detector_id =>
      let max_results := dgetD params "max_results" (.int 50)
      let finding_ids := dgetD params "finding_ids" .null
      let severity := dgetD params "severity" .null
      let search_term := dgetD params "search_term" .null
      (c.list_findings detector_id max_results finding_ids severity
        search_term session_context).map .raw
  else if operation == "get_finding_details" then
    let required_params := ["detector_id", "finding_id"]
    let missing_params := required_params.filter (fun p => !dcontains params p)
    if !missing_params.isEmpty then
      .ok (.dumped (getFindingDetailsMissingError missing_params))
    else
      match dget params "detector_id", dget params "finding_id" with
      | some detector_id, some finding_id =>
        (c.get_finding_details detector_id finding_id session_context).map .raw
      | _, _ => .error ⟨"KeyError", "unreachable: guarded by missing_params check"⟩
  else if operation == "list_ip_sets" then
    match dget params "detector_id" with
    | Option.none => .ok (.dumped listIpSetsDetectorError)
    | some detector_id =>
      let max_results := dgetD params "max_results" (.int 50)
      (c.list_ip_sets detector_id max_results session_context).map .raw
  else if operation == "list_threat_intel_sets" then
    match dget params "detector_id" with
    | Option.none => .ok (.dumped listThreatIntelSetsDetectorError)
    | some detector_id =>
      let max_results := dgetD params "max_results" (.int 50)
      (c.list_threat_intel_sets detector_id max_results session_context).map .raw
  else if operation == "get_findings_statistics" then
    match dget params "detector_id" with
    | Option.none => .ok (.dumped statsDetectorError)
    | some detector_id =>
      let finding_statistic_types := dgetD params "finding_statistic_types" .null
      let group_by := dgetD params "group_by" .null
      if !finding_statistic_types.truthy && !group_by.truthy then
        .ok (.dumped statsNeitherError)
      else if finding_statistic_types.truthy && group_by.truthy then
        .ok (.dumped statsBothError)
      else
        let finding_criteria := dgetD params "finding_criteria" .null
        let order_by := dgetD params "order_by" .null
        let max_results := dgetD params "max_results" .null
        (c.get_findings_statistics detector_id finding_statistic_types group_by
          finding_criteria order_by max_results session_context).map .raw
  else
    .ok (.dumped (unknownOperationError operation))

/-- The `try ... except Exception` wrapper (source lines 109-262): any
exception raised inside the operation dispatch is caught and converted
into a serialized error object. -/
def dispatchOperation (c : Collaborators) (operation : String)
    (session_context : Option String) (params : Params) : Output :=
  match runOperation c operation session_context params with
  | .ok o => o
  | .error e => .dumped (executionError operation e params)

/-- `guardduty_security_operations` (source lines 26-262), parameterized
over the collaborators and `json.loads` (`loads` returns the parsed value
or the `str(e)` of a `json.JSONDecodeError`).  First the nested-`params`
normalization (lines 91-107): a dict bound to key `"params"` replaces the
whole bag; a string bound to `"params"` is JSON-parsed and merged (and the
`"params"` key deleted), a parse failure returning a `JSONDecodeError`
object.  `params.update(parsed)` with a parsed value that is not a mapping
raises an exception that no handler catches, so it escapes the function;
CPython would accept a list of key/value pairs there and raises `TypeError`
or `ValueError` (message shape varies with the value) for other non-mapping
values — it is modelled uniformly as a raise, and no theorem below depends
on the behavior for non-mapping values other than that the exception
escapes.  Then the operation dispatch runs under the catch-all handler. -/
def guardduty_security_operations (c : Collaborators)
    (loads : String → Except String Value) (operation : String)
    (session_context : Option String) (params : Params) : Except PyExn Output :=
  match dget params "params" with
  | some (Value.dict d) =>
    .ok (dispatchOperation c operation session_context d)
  | some (Value.str s) =>
    match loads s with
    | .error msg => .ok (.dumped (jsonDecodeError msg))
    | .ok (Value.dict d) =>
      .ok (dispatchOperation c operation session_context
            (derase (dupdate params d) "params"))
    | .ok _ =>
      .error ⟨"TypeError", "dict.update requires a mapping or an iterable of key/value pairs"⟩
  | _ => .ok (dispatchOperation c operation session_context params)

/-- Escape one character for a JSON string literal.  (`json.dumps` also
transliterates non-ASCII characters with `\uXXXX` escapes by default; no
property below depends on the rendered text, so that transliteration is
not reproduced.) -/
def jsonEscapeChar (c : Char) : String :=
  if c = '\"' then "\\\""
  else if c = '\\' then "\\\\"
  else if c = '\n' then "\\n"
  else if c = '\t' then "\\t"
  else if c = '\r' then "\\r"
  else String.singleton c

/-- Escape a string for inclusion in JSON text. -/
def jsonEscape (s : String) : String :=
  s.foldl (fun acc ch => acc ++ jsonEscapeChar ch) ""

/-- `n` spaces of indentation. -/
def pad (n : Nat) : String :=
  String.mk (List.replicate n ' ')

mutual

/-- `json.dumps(v, indent=indent)` at nesting depth `level`. -/
def dumpValue (indent level : Nat) : Value → String
  | .str s => "\"" ++ jsonEscape s ++ "\""
  | .int n => toString n
  | .bool b => cond b "true" "false"
  | .null => "null"
  | .list l =>
    if l.isEmpty then "[]"
    else "[\n" ++ dumpListItems indent (level + 1) l ++ "\n" ++
      pad (indent * level) ++ "]"
  | .dict l =>
    if l.isEmpty then "\x7b\x7d"
    else "\x7b\n" ++ dumpDictItems indent (level + 1) l ++ "\n" ++
      pad (indent * level) ++ "\x7d"

/-- The comma-and-newline separated items of a JSON array. -/
def dumpListItems (indent level : Nat) : List Value → String
  | [] => ""
  | [v] => pad (indent * level) ++ dumpValue indent level v
  | v :: rest =>
    pad (indent * level) ++ dumpValue indent level v ++ ",\n" ++
      dumpListItems indent level rest

/-- The comma-and-newline separated entries of a JSON object. -/
def dumpDictItems (indent level : Nat) : List (String × Value) → String
  | [] => ""
  | [(k, v)] =>
    pad (indent * level) ++ "\"" ++ jsonEscape k ++ "\": " ++
      dumpValue indent level v
  | (k, v) :: rest =>
    pad (indent * level) ++ "\"" ++ jsonEscape k ++ "\": " ++
      dumpValue indent level v ++ ",\n" ++ dumpDictItems indent level rest

end

mutual

/-- `json.dumps(v)` with the default separators (no indent), as used by
every error return of the dispatcher. -/
def dumps : Value → String
  | .str s => "\"" ++ jsonEscape s ++ "\""
  | .int n => toString n
  | .bool b => cond b "true" "false"
  | .null => "null"
  | .list l => "[" ++ dumpsListItems l ++ "]"
  | .dict l => "\x7b" ++ dumpsDictItems l ++ "\x7d"

/-- Compact-form array items. -/
def dumpsListItems : List Value → String
  | [] => ""
  | [v] => dumps v
  | v :: rest => dumps v ++ ", " ++ dumpsListItems rest

/-- Compact-form object entries. -/
def dumpsDictItems : List (String × Value) → String
  | [] => ""
  | [(k, v)] => "\"" ++ jsonEscape k ++ "\": " ++ dumps v
  | (k, v) :: rest =>
    "\"" ++ jsonEscape k ++ "\": " ++ dumps v ++ ", " ++ dumpsDictItems rest

end

/-- The text a dispatcher return value denotes: collaborator text is passed
through unmodified; a structure built by the wrapper is serialized with
`json.dumps`. -/
def Output.render : Output → String
  | .raw s => s
  | .dumped v => dumps v

/-- The entries of the `"operations"` member of the static catalog built by
`discover_guardduty_operations` (source lines 286-411). -/
def catalogOperations : List (String × Value) :=
  [("list_detectors", .dict
     [("description", .str "List all GuardDuty detectors in the AWS account"),
      ("parameters", .dict
        [("max_results", .dict
           [("type", .str "int"), ("default", .int 100),
            ("description", .str "Maximum detectors to return")]),
         ("session_context", .dict
           [("type", .str "str"),
            ("description", .str "Optional session key for cross-account access")])]),
      ("examples", .list
        [.str "guardduty_security_operations(operation=\x27list_detectors\x27)",
         .str "guardduty_security_operations(operation=\x27list_detectors\x27, session_context=\x27123456789012_aws_dev\x27)"]),
      ("use_cases", .list
        [.str "Check if GuardDuty is enabled",
         .str "Audit detector configurations",
         .str "Get detector IDs for other operations",
         .str "Cross-account detector discovery"])]),
   ("list_findings", .dict
     [("description", .str "Retrieve security findings with advanced filtering capabilities"),
      ("parameters", .dict
        [("detector_id", .dict
           [("type", .str "str"), ("required", .bool true),
            ("description", .str "GuardDuty detector ID")]),
         ("max_results", .dict
           [("type", .str "int"), ("default", .int 50),
            ("description", .str "Maximum findings to return")]),
         ("severity", .dict
           [("type", .str "str"),
            ("options", .list [.str "LOW", .str "MEDIUM", .str "HIGH", .str "ALL"]),
            ("description", .str "Filter by severity")]),
         ("search_term", .dict
           [("type", .str "str"),
            ("description", .str "Text search across finding details")]),
         ("finding_ids", .dict
           [("type", .str "list"),
            ("description", .str "Specific finding IDs to retrieve")]),
         ("session_context", .dict
           [("type", .str "str"),
            ("description", .str "Optional session key for cross-account access")])]),
      ("examples", .list
        [.str "guardduty_security_operations(operation=\x27list_findings\x27, detector_id=\x27abc123\x27)",
         .str "guardduty_security_operations(operation=\x27list_findings\x27, detector_id=\x27abc123\x27, severity=\x27HIGH\x27)",
         .str "guardduty_security_operations(operation=\x27list_findings\x27, detector_id=\x27abc123\x27, search_term=\x27cryptocurrency\x27)",
         .str "guardduty_security_operations(operation=\x27list_findings\x27, detector_id=\x27abc123\x27, session_context=\x27123456789012_aws_dev\x27)"]),
      ("use_cases", .list
        [.str "Monitor active security threats",
         .str "Filter findings by severity level",
         .str "Search for specific threat patterns",
         .str "Export findings for reporting",
         .str "Cross-account threat monitoring"])]),
   ("get_finding_details", .dict
     [("description", .str "Get comprehensive details about a specific security finding"),
      ("parameters", .dict
        [("detector_id", .dict
           [("type", .str "str"), ("required", .bool true),
            ("description", .str "GuardDuty detector ID")]),
         ("finding_id", .dict
           [("type", .str "str"), ("required", .bool true),
            ("description", .str "Specific finding ID to analyze")]),
         ("session_context", .dict
           [("type", .str "str"),
            ("description", .str "Optional session key for cross-account access")])]),
      ("examples", .list
        [.str "guardduty_security_operations(operation=\x27get_finding_details\x27, detector_id=\x27abc123\x27, finding_id=\x27def456\x27)",
         .str "guardduty_security_operations(operation=\x27get_finding_details\x27, detector_id=\x27abc123\x27, finding_id=\x27def456\x27, session_context=\x27123456789012_aws_dev\x27)"]),
      ("use_cases", .list
        [.str "Investigate specific security incidents",
         .str "Get remediation recommendations",
         .str "Analyze attack patterns and IOCs",
         .str "Cross-account incident investigation"])]),
   ("list_ip_sets", .dict
     [("description", .str "List trusted and threat IP sets configured in GuardDuty"),
      ("parameters", .dict
        [("detector_id", .dict
           [("type", .str "str"), ("required", .bool true),
            ("description", .str "GuardDuty detector ID")]),
         ("max_results", .dict
           [("type", .str "int"), ("default", .int 50),
            ("description", .str "Maximum IP sets to return")]),
         ("session_context", .dict
           [("type", .str "str"),
            ("description", .str "Optional session key for cross-account access")])]),
      ("examples", .list
        [.str "guardduty_security_operations(operation=\x27list_ip_sets\x27, detector_id=\x27abc123\x27)",
         .str "guardduty_security_operations(operation=\x27list_ip_sets\x27, detector_id=\x27abc123\x27, session_context=\x27123456789012_aws_dev\x27)"]),
      ("use_cases", .list
        [.str "Review custom threat intelligence",
         .str "Audit trusted IP configurations",
         .str "Manage IP-based detection rules",
         .str "Cross-account IP set management"])]),
   ("list_threat_intel_sets", .dict
     [("description", .str "List threat intelligence feeds and indicators"),
      ("parameters", .dict
        [("detector_id", .dict
           [("type", .str "str"), ("required", .bool true),
            ("description", .str "GuardDuty detector ID")]),
         ("max_results", .dict
           [("type", .str "int"), ("default", .int 50),
            ("description", .str "Maximum threat intel sets to return")]),
         ("session_context", .dict
           [("type", .str "str"),
            ("description", .str "Optional session key for cross-account access")])]),
      ("examples", .list
        [.str "guardduty_security_operations(operation=\x27list_threat_intel_sets\x27, detector_id=\x27abc123\x27)",
         .str "guardduty_security_operations(operation=\x27list_threat_intel_sets\x27, detector_id=\x27abc123\x27, session_context=\x27123456789012_aws_dev\x27)"]),
      ("use_cases", .list
        [.str "Review threat intelligence sources",
         .str "Validate threat feed configurations",
         .str "Audit custom threat indicators",
         .str "Cross-account threat intelligence management"])]),
   ("get_findings_statistics", .dict
     [("description", .str "Get official AWS-calculated statistics (severity counts, grouping)"),
      ("parameters", .dict
        [("detector_id", .dict
           [("type", .str "str"), ("required", .bool true),
            ("description", .str "GuardDuty detector ID")]),
         ("finding_statistic_types", .dict
           [("type", .str "list"),
            ("description", .str "Types of statistics to get (e.g., [\x27COUNT_BY_SEVERITY\x27])")]),
         ("group_by", .dict
           [("type", .str "str"),
            ("options", .list [.str "ACCOUNT", .str "DATE", .str "FINDING_TYPE", .str "RESOURCE", .str "SEVERITY"]),
            ("description", .str "Group statistics by category")]),
         ("finding_criteria", .dict
           [("type", .str "dict"),
            ("description", .str "Criteria to filter findings for statistics")]),
         ("order_by", .dict
           [("type", .str "str"),
            ("options", .list [.str "ASC", .str "DESC"]),
            ("description", .str "Sort order (only with group_by)")]),
         ("max_results", .dict
           [("type", .str "int"),
            ("description", .str "Maximum results (only with group_by, max 100)")]),
         ("session_context", .dict
           [("type", .str "str"),
            ("description", .str "Optional session key for cross-account access")])]),
      ("examples", .list
        [.str "guardduty_security_operations(operation=\x27get_findings_statistics\x27, detector_id=\x27abc123\x27, finding_statistic_types=[\x27COUNT_BY_SEVERITY\x27])",
         .str "guardduty_security_operations(operation=\x27get_findings_statistics\x27, detector_id=\x27abc123\x27, group_by=\x27FINDING_TYPE\x27, order_by=\x27DESC\x27, max_results=10)",
         .str "guardduty_security_operations(operation=\x27get_findings_statistics\x27, detector_id=\x27abc123\x27, finding_statistic_types=[\x27COUNT_BY_SEVERITY\x27], session_context=\x27123456789012_aws_dev\x27)"]),
      ("usage_notes", .list
        [.str "Must provide either finding_statistic_types OR group_by, but not both",
         .str "order_by and max_results can only be used with group_by",
         .str "Use finding_statistic_types=[\x27COUNT_BY_SEVERITY\x27] for basic severity counts",
         .str "Use group_by for advanced grouping and sorting capabilities"]),
      ("use_cases", .list
        [.str "Get official AWS-calculated severity statistics",
         .str "Analyze findings grouped by type, account, or resource",
         .str "Generate statistics reports with filtering",
         .str "Cross-account statistics monitoring"])])]

/-- The static `operations_catalog` structure built by
`discover_guardduty_operations` (source lines 276-426). -/
def operationsCatalog : Value :=
  .dict
    [("service", .str "AWS GuardDuty"),
     ("description", .str "Threat detection and continuous security monitoring service"),
     ("wrapper_tool", .str "guardduty_security_operations"),
     ("cross_account_support", .dict
       [("enabled", .bool true),
        ("parameter", .str "session_context"),
        ("format", .str "123456789012_aws_dev"),
        ("description", .str "Access GuardDuty resources across different AWS accounts")]),
     ("operations", .dict catalogOperations),
     ("security_insights", .dict
       [("best_practices", .list
         [.str "Always start with list_detectors to get detector IDs",
          .str "Use severity filtering for high-priority threat triage",
          .str "Regular monitoring of HIGH severity findings",
          .str "Review threat intelligence configurations periodically",
          .str "Implement cross-account monitoring for centralized security"]),
        ("common_workflows", .list
         [.str "1. List detectors → 2. List high-severity findings → 3. Analyze specific findings",
          .str "1. List detectors → 2. Review IP sets → 3. Validate threat intelligence",
          .str "Cross-account: 1. List detectors with session_context → 2. Monitor findings across accounts"])])]

/-- `discover_guardduty_operations` (source lines 264-428): it takes no
arguments (the `Unit` argument marks one invocation), performs no fallible
operation, and returns the static catalog serialized with
`json.dumps(..., indent=2)`. -/
def discover_guardduty_operations (_ : Unit) : String :=
  dumpValue 2 0 operationsCatalog

/-- A concrete instantiation of the collaborators for witnesses: each
returns a distinct tag, and `list_ip_sets` additionally echoes the
`max_results` value it received. -/
def testCollaborators : Collaborators where
  list_detectors := fun _ _ => .ok "DETECTORS"
  list_findings := fun _ _ _ _ _ _ => .ok "FINDINGS"
  get_finding_details := fun _ _ _ => .ok "DETAILS"
  list_ip_sets := fun _ max_results _ =>
    .ok ("IPSETS_M" ++ (match max_results with | .int n => toString n | _ => "x"))
  list_threat_intel_sets := fun _ _ _ => .ok "TISETS"
  get_findings_statistics := fun _ _ _ _ _ _ _ => .ok "STATS"

/-- Collaborators that all raise, to exercise the catch-all handler and to
show that error paths do not invoke (and hence do not depend on) any
collaborator. -/
def failingCollaborators : Collaborators where
  list_detectors := fun _ _ => .error ⟨"RuntimeError", "boom"⟩
  list_findings := fun _ _ _ _ _ _ => .error ⟨"RuntimeError", "boom"⟩
  get_finding_details := fun _ _ _ => .error ⟨"RuntimeError", "boom"⟩
  list_ip_sets := fun _ _ _ => .error ⟨"RuntimeError", "boom"⟩
  list_threat_intel_sets := fun _ _ _ => .error ⟨"RuntimeError", "boom"⟩
  get_findings_statistics := fun _ _ _ _ _ _ _ => .error ⟨"RuntimeError", "boom"⟩

/-- A sample of `json.loads` agreeing with Python on the inputs exercised
below: `"5"` parses to the integer `5`, the object text parses to a
one-entry mapping, and the remaining inputs fail to parse (Python raises
`json.JSONDecodeError` whose `str` is the message returned here). -/
def sampleLoads : String → Except String Value
  | "5" => .ok (.int 5)
  | "\x7b\"detector_id\": \"d1\"\x7d" => .ok (.dict [("detector_id", .str "d1")])
  | _ => .error "Expecting value: line 1 column 1 (char 0)"

/-! ### Helper lemmas -/

/-- When the bag holds no `"params"` key, normalization leaves it unchanged
and the dispatcher proceeds directly to the operation dispatch. -/
theorem guardduty_eq_of_no_nested (c : Collaborators)
    (loads : String → Except String Value) (op : String) (sc : Option String)
    (params : Params) (h : dget params "params" = Option.none) :
    guardduty_security_operations c loads op sc params =
      .ok (dispatchOperation c op sc params) := by
  unfold guardduty_security_operations
  rw [h]

/-- When the bag binds `"params"` to a mapping, that mapping replaces the
whole bag before dispatch. -/
theorem guardduty_eq_of_nested_dict (c : Collaborators)
    (loads : String → Except String Value) (op : String) (sc : Option String)
    (params d : Params) (h : dget params "params" = some (Value.dict d)) :
    guardduty_security_operations c loads op sc params =
      .ok (dispatchOperation c op sc d) := by
  unfold guardduty_security_operations
  rw [h]

/-- When the bag binds `"params"` to a string, the dispatcher's behavior is
determined by the outcome of JSON-parsing that string. -/
theorem guardduty_eq_of_nested_str (c : Collaborators)
    (loads : String → Except String Value) (op : String) (sc : Option String)
    (params : Params) (s : String)
    (h : dget params "params" = some (Value.str s)) :
    guardduty_security_operations c loads op sc params =
      match loads s with
      | .error msg => .ok (.dumped (jsonDecodeError msg))
      | .ok (Value.dict d) =>
        .ok (dispatchOperation c op sc (derase (dupdate params d) "params"))
      | .ok _ =>
        .error ⟨"TypeError", "dict.update requires a mapping or an iterable of key/value pairs"⟩ := by
  unfold guardduty_security_operations
  rw [h]

/-- The catch-all handler, restated as an equation. -/
theorem dispatchOperation_eq (c : Collaborators) (op : String)
    (sc : Option String) (params : Params) :
    dispatchOperation c op sc params =
      match runOperation c op sc params with
      | .ok o => o
      | .error e => .dumped (executionError op e params) := rfl

/-- Unfolding of the `list_detectors` branch. -/
theorem runOperation_list_detectors (c : Collaborators) (sc : Option String)
    (params : Params) :
    runOperation c "list_detectors" sc params =
      (c.list_detectors (dgetD params "max_results" (Value.int 100)) sc).map
        Output.raw := rfl

/-- Unfolding of the `list_findings` branch. -/
theorem runOperation_list_findings (c : Collaborators) (sc : Option String)
    (params : Params) :
    runOperation c "list_findings" sc params =
      match dget params "detector_id" with
      | Option.none => .ok (.dumped listFindingsDetectorError)
      | some detector_id =>
        (c.list_findings detector_id (dgetD params "max_results" (Value.int 50))
          (dgetD params "finding_ids" Value.null)
          (dgetD params "severity" Value.null)
          (dgetD params "search_term" Value.null) sc).map Output.raw := rfl

/-- Unfolding of the `get_finding_details` branch. -/
theorem runOperation_get_finding_details (c : Collaborators)
    (sc : Option String) (params : Params) :
    runOperation c "get_finding_details" sc params =
      (if !(["detector_id", "finding_id"].filter
            (fun p => !dcontains params p)).isEmpty then
        .ok (.dumped (getFindingDetailsMissingError
          (["detector_id", "finding_id"].filter (fun p => !dcontains params p))))
      else
        match dget params "detector_id", dget params "finding_id" with
        | some detector_id, some finding_id =>
          (c.get_finding_details detector_id finding_id sc).map Output.raw
        | _, _ =>
          .error ⟨"KeyError", "unreachable: guarded by missing_params check"⟩) := rfl

/-- Unfolding of the `list_ip_sets` branch. -/
theorem runOperation_list_ip_sets (c : Collaborators) (sc : Option String)
    (params : Params) :
    runOperation c "list_ip_sets" sc params =
      match dget params "detector_id" with
      | Option.none => .ok (.dumped listIpSetsDetectorError)
      | some detector_id =>
        (c.list_ip_sets detector_id (dgetD params "max_results" (Value.int 50))
          sc).map Output.raw := rfl

/-- Unfolding of the `list_threat_intel_sets` branch. -/
theorem runOperation_list_threat_intel_sets (c : Collaborators)
    (sc : Option String) (params : Params) :
    runOperation c "list_threat_intel_sets" sc params =
      match dget params "detector_id" with
      | Option.none => .ok (.dumped listThreatIntelSetsDetectorError)
      | some detector_id =>
        (c.list_threat_intel_sets detector_id
          (dgetD params "max_results" (Value.int 50)) sc).map Output.raw := rfl

/-- Unfolding of the `get_findings_statistics` branch. -/
theorem runOperation_get_findings_statistics (c : Collaborators)
    (sc : Option String) (params : Params) :
    runOperation c "get_findings_statistics" sc params =
      match dget params "detector_id" with
      | Option.none => .ok (.dumped statsDetectorError)
      | some detector_id =>
        if !(dgetD params "finding_statistic_types" Value.null).truthy &&
            !(dgetD params "group_by" Value.null).truthy then
          .ok (.dumped statsNeitherError)
        else if (dgetD params "finding_statistic_types" Value.null).truthy &&
            (dgetD params "group_by" Value.null).truthy then
          .ok (.dumped statsBothError)
        else
          (c.get_findings_statistics detector_id
            (dgetD params "finding_statistic_types" Value.null)
            (dgetD params "group_by" Value.null)
            (dgetD params "finding_criteria" Value.null)
            (dgetD params "order_by" Value.null)
            (dgetD params "max_results" Value.null) sc).map Output.raw := rfl

/-- Deleting a key removes every binding of it. -/
theorem dget_derase (p : Params) (k : String) :
    dget (derase p k) k = Option.none := by
  have hfind : (derase p k).find? (fun q => q.1 == k) = Option.none := by
    rw [List.find?_eq_none]
    intro x hx
    have hm := (List.mem_filter.mp hx).2
    simp only [bne_iff_ne, ne_eq] at hm
    simpa using hm
  simp [dget, hfind]

/-! ### Claim theorems -/

/-- C7: for every input whose value under the key `"params"` is a string
that fails JSON parsing, the dispatcher returns the
`JSONDecodeError`-shaped error object echoing the parse failure message,
regardless of the requested operation; the result does not depend on the
collaborators, so none is invoked. -/
theorem invalid_json_params_error (c : Collaborators)
    (loads : String → Except String Value) (op : String) (sc : Option String)
    (params : Params) (s msg : String)
    (h1 : dget params "params" = some (Value.str s))
    (h2 : loads s = Except.error msg) :
    guardduty_security_operations c loads op sc params =
      .ok (.dumped (jsonDecodeError msg)) := by
  rw [guardduty_eq_of_nested_str c loads op sc params s h1, h2]

/-- Witness for C7: `params={"params": "not valid json"}` produces the
parse-error object. -/
theorem invalid_json_params_error_witness :
    guardduty_security_operations testCollaborators sampleLoads "list_findings"
      Option.none [("params", Value.str "not valid json")] =
      .ok (.dumped (jsonDecodeError "Expecting value: line 1 column 1 (char 0)")) :=
  invalid_json_params_error testCollaborators sampleLoads "list_findings"
    Option.none [("params", Value.str "not valid json")] "not valid json"
    "Expecting value: line 1 column 1 (char 0)" rfl rfl

/-- C4 counterexample: with
`params={"params": {"detector_id": "d1"}, "max_results": 5}` for
`list_ip_sets`, the nested mapping REPLACES the top-level parameter set, so
the top-level `max_results=5` is discarded and the collaborator receives
the default `max_results=50` (the spy collaborator reports `"IPSETS_M50"`,
not `"IPSETS_M5"`) — refuting the claim that every top-level entry of the
original `params` stays visible after the merge. -/
theorem nested_params_dict_replaces_counterexample :
    guardduty_security_operations testCollaborators sampleLoads "list_ip_sets"
      Option.none
      [("params", Value.dict [("detector_id", Value.str "d1")]),
       ("max_results", Value.int 5)] = .ok (.raw "IPSETS_M50") := rfl

/-- C4 amended: if the value under the literal key `"params"` is a mapping,
that mapping replaces the entire top-level parameter set; if it is a
string that parses to a mapping, the parsed entries are merged into the
top-level set and the `"params"` key is removed.  In particular
`params={"params": {"detector_id": "d1"}}` alone is equivalent to
`params={"detector_id": "d1"}`. -/
theorem nested_params_normalization :
    (∀ (c : Collaborators) (loads : String → Except String Value)
       (op : String) (sc : Option String) (params d : Params),
       dget params "params" = some (Value.dict d) →
       dget d "params" = Option.none →
       guardduty_security_operations c loads op sc params =
         guardduty_security_operations c loads op sc d) ∧
    (∀ (c : Collaborators) (loads : String → Except String Value)
       (op : String) (sc : Option String) (params : Params) (s : String)
       (d : Params),
       dget params "params" = some (Value.str s) →
       loads s = Except.ok (Value.dict d) →
       guardduty_security_operations c loads op sc params =
         guardduty_security_operations c loads op sc
           (derase (dupdate params d) "params")) := by
  constructor
  · intro c loads op sc params d h1 h2
    rw [guardduty_eq_of_no_nested c loads op sc d h2]
    exact guardduty_eq_of_nested_dict c loads op sc params d h1
  · intro c loads op sc params s d h1 h2
    rw [guardduty_eq_of_no_nested c loads op sc _ (dget_derase _ _)]
    rw [guardduty_eq_of_nested_str c loads op sc params s h1, h2]

/-- Witness for the amended C4: both normalization forms at concrete
inputs. -/
theorem nested_params_normalization_witness :
    guardduty_security_operations testCollaborators sampleLoads "list_ip_sets"
      Option.none [("params", Value.dict [("detector_id", Value.str "d1")])] =
      guardduty_security_operations testCollaborators sampleLoads "list_ip_sets"
        Option.none [("detector_id", Value.str "d1")] ∧
    guardduty_security_operations testCollaborators sampleLoads "list_ip_sets"
      Option.none [("params", Value.str "\x7b\"detector_id\": \"d1\"\x7d")] =
      guardduty_security_operations testCollaborators sampleLoads "list_ip_sets"
        Option.none
        (derase (dupdate [("params", Value.str "\x7b\"detector_id\": \"d1\"\x7d")]
          [("detector_id", Value.str "d1")]) "params") :=
  ⟨nested_params_normalization.1 testCollaborators sampleLoads "list_ip_sets"
     Option.none _ _ rfl rfl,
   nested_params_normalization.2 testCollaborators sampleLoads "list_ip_sets"
     Option.none _ "\x7b\"detector_id\": \"d1\"\x7d" _ rfl rfl⟩

/-- C5 counterexample: with `params={"params": "5"}` — a string that parses
as valid JSON to a non-mapping — the merge step raises and no handler
catches it, so a fault escapes `guardduty_security_operations` and the
function does not return text. -/
theorem preprocessing_fault_escape_counterexample :
    guardduty_security_operations testCollaborators sampleLoads
      "list_detectors" Option.none [("params", Value.str "5")] =
      Except.error
        ⟨"TypeError", "dict.update requires a mapping or an iterable of key/value pairs"⟩ := rfl

/-- C5 amended: every fault raised inside the operation dispatch (in
particular any collaborator fault, for every known operation) is caught
and converted into the structured error object carrying the failure
message, the fault's runtime type name, the operation name, and the
normalized parameter set; the only way a fault escapes the function is the
preprocessing path in which the value under `"params"` is a string that
parses to a non-mapping JSON value. -/
theorem dispatcher_fault_handling :
    (∀ (c : Collaborators) (loads : String → Except String Value)
       (op : String) (sc : Option String) (params : Params) (e : PyExn),
       dget params "params" = Option.none →
       runOperation c op sc params = Except.error e →
       guardduty_security_operations c loads op sc params =
         .ok (.dumped (executionError op e params))) ∧
    (∀ (c : Collaborators) (loads : String → Except String Value)
       (op : String) (sc : Option String) (params : Params) (e : PyExn),
       guardduty_security_operations c loads op sc params = Except.error e →
       ∃ s v, dget params "params" = some (Value.str s) ∧
         loads s = Except.ok v ∧ v.isDict = false) := by
  constructor
  · intro c loads op sc params e h1 h2
    rw [guardduty_eq_of_no_nested c loads op sc params h1, dispatchOperation_eq,
      h2]
  · intro c loads op sc params e h
    rcases hp : dget params "params" with _ | v
    · rw [guardduty_eq_of_no_nested c loads op sc params hp] at h
      exact Except.noConfusion h
    · rcases v with s | n | b | _ | l | d
      case str =>
        rw [guardduty_eq_of_nested_str c loads op sc params s hp] at h
        rcases hl : loads s with msg | pv
        · rw [hl] at h
          exact Except.noConfusion h
        · rcases pv with s' | n' | b' | _ | l' | d'
          · exact ⟨s, .str s', rfl, hl, rfl⟩
          · exact ⟨s, .int n', rfl, hl, rfl⟩
          · exact ⟨s, .bool b', rfl, hl, rfl⟩
          · exact ⟨s, .null, rfl, hl, rfl⟩
          · exact ⟨s, .list l', rfl, hl, rfl⟩
          · rw [hl] at h
            exact Except.noConfusion h
      case dict =>
        rw [guardduty_eq_of_nested_dict c loads op sc params d hp] at h
        exact Except.noConfusion h
      all_goals unfold guardduty_security_operations at h
      all_goals rw [hp] at h
      all_goals exact Except.noConfusion h

/-- Witness for the amended C5: a raising collaborator is converted into
the structured error object, and at the concrete escaping input the escape
indeed goes through the non-mapping-JSON preprocessing path. -/
theorem dispatcher_fault_handling_witness :
    guardduty_security_operations failingCollaborators sampleLoads
      "list_detectors" Option.none [] =
      .ok (.dumped (executionError "list_detectors" ⟨"RuntimeError", "boom"⟩ [])) ∧
    (∃ s v, dget [("params", Value.str "5")] "params" = some (Value.str s) ∧
       sampleLoads s = Except.ok v ∧ v.isDict = false) :=
  ⟨dispatcher_fault_handling.1 failingCollaborators sampleLoads "list_detectors"
     Option.none [] ⟨"RuntimeError", "boom"⟩ rfl rfl,
   dispatcher_fault_handling.2 testCollaborators sampleLoads "list_detectors"
     Option.none [("params", Value.str "5")]
     ⟨"TypeError", "dict.update requires a mapping or an iterable of key/value pairs"⟩
     rfl⟩

/-- C3 counterexample: the unknown-operation error for `operation="bogus"`
does carry the six `available_operations`, but its `usage_examples` object
lacks entries for `list_ip_sets` and `list_threat_intel_sets`, refuting
"contains a usage example for every one of the six operations". -/
theorem unknown_operation_usage_examples_counterexample :
    guardduty_security_operations testCollaborators sampleLoads "bogus"
      Option.none [] = .ok (.dumped (unknownOperationError "bogus")) ∧
    (unknownOperationError "bogus").field "usage_examples" =
      some (.dict usageExamples) ∧
    dget usageExamples "list_ip_sets" = Option.none ∧
    dget usageExamples "list_threat_intel_sets" = Option.none :=
  ⟨rfl, rfl, rfl, rfl⟩

/-- C3 amended: for every operation string not among the six known names
and every parameter bag that passes preprocessing, the dispatcher returns
the structured error whose `available_operations` equals the fixed
six-name list, and whose `usage_examples` carries entries for four of the
six operations; the result does not depend on the collaborators, so none
is invoked. -/
theorem unknown_operation_error_contents :
    (∀ (c : Collaborators) (loads : String → Except String Value)
       (op : String) (sc : Option String) (params : Params),
       op ∉ availableOperations →
       dget params "params" = Option.none →
       guardduty_security_operations c loads op sc params =
         .ok (.dumped (unknownOperationError op))) ∧
    (∀ op, (unknownOperationError op).field "available_operations" =
       some (.list (availableOperations.map Value.str))) ∧
    availableOperations =
      ["list_detectors", "list_findings", "get_finding_details",
       "list_ip_sets", "list_threat_intel_sets", "get_findings_statistics"] ∧
    usageExamples.map Prod.fst =
      ["list_detectors", "list_findings", "get_finding_details",
       "get_findings_statistics"] := by
  refine ⟨?_, fun op => rfl, rfl, rfl⟩
  intro c loads op sc params hop hp
  rw [guardduty_eq_of_no_nested c loads op sc params hp, dispatchOperation_eq]
  simp only [availableOperations, List.mem_cons, List.not_mem_nil, or_false,
    not_or] at hop
  obtain ⟨h1, h2, h3, h4, h5, h6⟩ := hop
  unfold runOperation
  simp [h1, h2, h3, h4, h5, h6]

/-- Witness for the amended C3: a concrete unknown operation with a
nonempty parameter bag yields exactly the unknown-operation error. -/
theorem unknown_operation_error_contents_witness :
    guardduty_security_operations testCollaborators sampleLoads "bogus"
      Option.none [("detector_id", Value.str "d1")] =
      .ok (.dumped (unknownOperationError "bogus")) :=
  unknown_operation_error_contents.1 testCollaborators sampleLoads "bogus"
    Option.none [("detector_id", Value.str "d1")] (by decide) rfl

/-- C1: for each of the six known operations, with all required parameters
present in the (already-normalized) bag, the dispatcher invokes the
matching collaborator with the extracted parameters and the given
`session_context`, and returns that collaborator's return value
unmodified.  Each conjunct holds for every collaborator record `c`, so the
result is a function of the one named collaborator's value at the one
listed argument tuple — no other collaborator can influence it. -/
theorem dispatch_known_operations_passthrough :
    (∀ (c : Collaborators) (loads : String → Except String Value)
       (sc : Option String) (params : Params) (r : String),
       dget params "params" = Option.none →
       c.list_detectors (dgetD params "max_results" (Value.int 100)) sc =
         Except.ok r →
       guardduty_security_operations c loads "list_detectors" sc params =
         .ok (.raw r)) ∧
    (∀ (c : Collaborators) (loads : String → Except String Value)
       (sc : Option String) (params : Params) (d : Value) (r : String),
       dget params "params" = Option.none →
       dget params "detector_id" = some d →
       c.list_findings d (dgetD params "max_results" (Value.int 50))
         (dgetD params "finding_ids" Value.null)
         (dgetD params "severity" Value.null)
         (dgetD params "search_term" Value.null) sc = Except.ok r →
       guardduty_security_operations c loads "list_findings" sc params =
         .ok (.raw r)) ∧
    (∀ (c : Collaborators) (loads : String → Except String Value)
       (sc : Option String) (params : Params) (d f : Value) (r : String),
       dget params "params" = Option.none →
       dget params "detector_id" = some d →
       dget params "finding_id" = some f →
       c.get_finding_details d f sc = Except.ok r →
       guardduty_security_operations c loads "get_finding_details" sc params =
         .ok (.raw r)) ∧
    (∀ (c : Collaborators) (loads : String → Except String Value)
       (sc : Option String) (params : Params) (d : Value) (r : String),
       dget params "params" = Option.none →
       dget params "detector_id" = some d →
       c.list_ip_sets d (dgetD params "max_results" (Value.int 50)) sc =
         Except.ok r →
       guardduty_security_operations c loads "list_ip_sets" sc params =
         .ok (.raw r)) ∧
    (∀ (c : Collaborators) (loads : String → Except String Value)
       (sc : Option String) (params : Params) (d : Value) (r : String),
       dget params "params" = Option.none →
       dget params "detector_id" = some d →
       c.list_threat_intel_sets d (dgetD params "max_results" (Value.int 50))
         sc = Except.ok r →
       guardduty_security_operations c loads "list_threat_intel_sets" sc
         params = .ok (.raw r)) ∧
    (∀ (c : Collaborators) (loads : String → Except String Value)
       (sc : Option String) (params : Params) (d : Value) (r : String),
       dget params "params" = Option.none →
       dget params "detector_id" = some d →
       (!(dgetD params "finding_statistic_types" Value.null).truthy &&
         !(dgetD params "group_by" Value.null).truthy) = false →
       ((dgetD params "finding_statistic_types" Value.null).truthy &&
         (dgetD params "group_by" Value.null).truthy) = false →
       c.get_findings_statistics d
         (dgetD params "finding_statistic_types" Value.null)
         (dgetD params "group_by" Value.null)
         (dgetD params "finding_criteria" Value.null)
         (dgetD params "order_by" Value.null)
         (dgetD params "max_results" Value.null) sc = Except.ok r →
       guardduty_security_operations c loads "get_findings_statistics" sc
         params = .ok (.raw r)) := by
  refine ⟨?_, ?_, ?_, ?_, ?_, ?_⟩
  · intro c loads sc params r h1 h2
    rw [guardduty_eq_of_no_nested c loads _ sc params h1, dispatchOperation_eq,
      runOperation_list_detectors, h2]
    rfl
  · intro c loads sc params d r h1 h2 h3
    rw [guardduty_eq_of_no_nested c loads _ sc params h1, dispatchOperation_eq,
      runOperation_list_findings, h2]
    simp [h3, Except.map]
  · intro c loads sc params d f r h1 h2 h3 h4
    rw [guardduty_eq_of_no_nested c loads _ sc params h1, dispatchOperation_eq,
      runOperation_get_finding_details]
    simp [dcontains, h2, h3, h4, Except.map]
  · intro c loads sc params d r h1 h2 h3
    rw [guardduty_eq_of_no_nested c loads _ sc params h1, dispatchOperation_eq,
      runOperation_list_ip_sets, h2]
    simp [h3, Except.map]
  · intro c loads sc params d r h1 h2 h3
    rw [guardduty_eq_of_no_nested c loads _ sc params h1, dispatchOperation_eq,
      runOperation_list_threat_intel_sets, h2]
    simp [h3, Except.map]
  · intro c loads sc params d r h1 h2 h3 h4 h5
    rw [guardduty_eq_of_no_nested c loads _ sc params h1, dispatchOperation_eq,
      runOperation_get_findings_statistics, h2]
    simp [h3, h4, h5, Except.map]

/-- Witness for C1: all six dispatch paths at concrete inputs. -/
theorem dispatch_known_operations_passthrough_witness :
    guardduty_security_operations testCollaborators sampleLoads
      "list_detectors" Option.none [] = .ok (.raw "DETECTORS") ∧
    guardduty_security_operations testCollaborators sampleLoads
      "list_findings" Option.none [("detector_id", Value.str "d1")] =
      .ok (.raw "FINDINGS") ∧
    guardduty_security_operations testCollaborators sampleLoads
      "get_finding_details" Option.none
      [("detector_id", Value.str "d1"), ("finding_id", Value.str "f1")] =
      .ok (.raw "DETAILS") ∧
    guardduty_security_operations testCollaborators sampleLoads
      "list_ip_sets" Option.none [("detector_id", Value.str "d1")] =
      .ok (.raw "IPSETS_M50") ∧
    guardduty_security_operations testCollaborators sampleLoads
      "list_threat_intel_sets" Option.none [("detector_id", Value.str "d1")] =
      .ok (.raw "TISETS") ∧
    guardduty_security_operations testCollaborators sampleLoads
      "get_findings_statistics" Option.none
      [("detector_id", Value.str "d1"), ("group_by", Value.str "FINDING_TYPE")] =
      .ok (.raw "STATS") :=
  ⟨dispatch_known_operations_passthrough.1 testCollaborators sampleLoads
     Option.none [] "DETECTORS" rfl rfl,
   dispatch_known_operations_passthrough.2.1 testCollaborators sampleLoads
     Option.none [("detector_id", Value.str "d1")] (Value.str "d1") "FINDINGS"
     rfl rfl rfl,
   dispatch_known_operations_passthrough.2.2.1 testCollaborators sampleLoads
     Option.none [("detector_id", Value.str "d1"), ("finding_id", Value.str "f1")]
     (Value.str "d1") (Value.str "f1") "DETAILS" rfl rfl rfl rfl,
   dispatch_known_operations_passthrough.2.2.2.1 testCollaborators sampleLoads
     Option.none [("detector_id", Value.str "d1")] (Value.str "d1")
     "IPSETS_M50" rfl rfl rfl,
   dispatch_known_operations_passthrough.2.2.2.2.1 testCollaborators sampleLoads
     Option.none [("detector_id", Value.str "d1")] (Value.str "d1") "TISETS"
     rfl rfl rfl,
   dispatch_known_operations_passthrough.2.2.2.2.2 testCollaborators sampleLoads
     Option.none
     [("detector_id", Value.str "d1"), ("group_by", Value.str "FINDING_TYPE")]
     (Value.str "d1") "STATS" rfl rfl rfl rfl rfl⟩

/-- C2 counterexample: for `get_findings_statistics` with `detector_id`
present and exactly one of the mutually exclusive pair provided — but with
a falsy value (`finding_statistic_types=[]`) — the dispatcher returns the
"required" validation error instead of invoking the statistics
collaborator; the result is identical under collaborators that all raise,
so no collaborator runs.  The branch tests Python truthiness, not
presence. -/
theorem stats_exactly_one_falsy_counterexample :
    guardduty_security_operations testCollaborators sampleLoads
      "get_findings_statistics" Option.none
      [("detector_id", Value.str "d1"),
       ("finding_statistic_types", Value.list [])] =
      .ok (.dumped statsNeitherError) ∧
    guardduty_security_operations failingCollaborators sampleLoads
      "get_findings_statistics" Option.none
      [("detector_id", Value.str "d1"),
       ("finding_statistic_types", Value.list [])] =
      .ok (.dumped statsNeitherError) := ⟨rfl, rfl⟩

/-- C2 amended: for `get_findings_statistics` with `detector_id` present,
the mutually-exclusive check is by truthiness: if both
`finding_statistic_types` and `group_by` are truthy the conflict error is
returned; if neither is truthy (absent or falsy) the "required" error is
returned; if exactly one is truthy the statistics collaborator is invoked;
in the two error cases no collaborator is invoked (the result does not
depend on the collaborators). -/
theorem stats_mutual_exclusion_truthiness :
    (∀ (c : Collaborators) (loads : String → Except String Value)
       (sc : Option String) (params : Params) (d : Value),
       dget params "params" = Option.none →
       dget params "detector_id" = some d →
       (dgetD params "finding_statistic_types" Value.null).truthy = true →
       (dgetD params "group_by" Value.null).truthy = true →
       guardduty_security_operations c loads "get_findings_statistics" sc
         params = .ok (.dumped statsBothError)) ∧
    (∀ (c : Collaborators) (loads : String → Except String Value)
       (sc : Option String) (params : Params) (d : Value),
       dget params "params" = Option.none →
       dget params "detector_id" = some d →
       (dgetD params "finding_statistic_types" Value.null).truthy = false →
       (dgetD params "group_by" Value.null).truthy = false →
       guardduty_security_operations c loads "get_findings_statistics" sc
         params = .ok (.dumped statsNeitherError)) ∧
    (∀ (c : Collaborators) (loads : String → Except String Value)
       (sc : Option String) (params : Params) (d : Value) (r : String),
       dget params "params" = Option.none →
       dget params "detector_id" = some d →
       (dgetD params "finding_statistic_types" Value.null).truthy = true →
       (dgetD params "group_by" Value.null).truthy = false →
       c.get_findings_statistics d
         (dgetD params "finding_statistic_types" Value.null)
         (dgetD params "group_by" Value.null)
         (dgetD params "finding_criteria" Value.null)
         (dgetD params "order_by" Value.null)
         (dgetD params "max_results" Value.null) sc = Except.ok r →
       guardduty_security_operations c loads "get_findings_statistics" sc
         params = .ok (.raw r)) ∧
    (∀ (c : Collaborators) (loads : String → Except String Value)
       (sc : Option String) (params : Params) (d : Value) (r : String),
       dget params "params" = Option.none →
       dget params "detector_id" = some d →
       (dgetD params "finding_statistic_types" Value.null).truthy = false →
       (dgetD params "group_by" Value.null).truthy = true →
       c.get_findings_statistics d
         (dgetD params "finding_statistic_types" Value.null)
         (dgetD params "group_by" Value.null)
         (dgetD params "finding_criteria" Value.null)
         (dgetD params "order_by" Value.null)
         (dgetD params "max_results" Value.null) sc = Except.ok r →
       guardduty_security_operations c loads "get_findings_statistics" sc
         params = .ok (.raw r)) := by
  refine ⟨?_, ?_, ?_, ?_⟩
  · intro c loads sc params d h1 h2 h3 h4
    rw [guardduty_eq_of_no_nested c loads _ sc params h1, dispatchOperation_eq,
      runOperation_get_findings_statistics, h2]
    simp [h3, h4]
  · intro c loads sc params d h1 h2 h3 h4
    rw [guardduty_eq_of_no_nested c loads _ sc params h1, dispatchOperation_eq,
      runOperation_get_findings_statistics, h2]
    simp [h3, h4]
  · intro c loads sc params d r h1 h2 h3 h4 h5
    rw [guardduty_eq_of_no_nested c loads _ sc params h1, dispatchOperation_eq,
      runOperation_get_findings_statistics, h2]
    simp [h3, h4, h5, Except.map]
  · intro c loads sc params d r h1 h2 h3 h4 h5
    rw [guardduty_eq_of_no_nested c loads _ sc params h1, dispatchOperation_eq,
      runOperation_get_findings_statistics, h2]
    simp [h3, h4, h5, Except.map]

/-- Witness for the amended C2: all four truthiness cases at concrete
inputs. -/
theorem stats_mutual_exclusion_truthiness_witness :
    guardduty_security_operations testCollaborators sampleLoads
      "get_findings_statistics" Option.none
      [("detector_id", Value.str "d1"),
       ("finding_statistic_types", Value.list [Value.str "COUNT_BY_SEVERITY"]),
       ("group_by", Value.str "SEVERITY")] = .ok (.dumped statsBothError) ∧
    guardduty_security_operations testCollaborators sampleLoads
      "get_findings_statistics" Option.none
      [("detector_id", Value.str "d1")] = .ok (.dumped statsNeitherError) ∧
    guardduty_security_operations testCollaborators sampleLoads
      "get_findings_statistics" Option.none
      [("detector_id", Value.str "d1"),
       ("finding_statistic_types", Value.list [Value.str "COUNT_BY_SEVERITY"])] =
      .ok (.raw "STATS") ∧
    guardduty_security_operations testCollaborators sampleLoads
      "get_findings_statistics" Option.none
      [("detector_id", Value.str "d1"),
       ("group_by", Value.str "FINDING_TYPE")] = .ok (.raw "STATS") :=
  ⟨stats_mutual_exclusion_truthiness.1 testCollaborators sampleLoads
     Option.none _ (Value.str "d1") rfl rfl rfl rfl,
   stats_mutual_exclusion_truthiness.2.1 testCollaborators sampleLoads
     Option.none _ (Value.str "d1") rfl rfl rfl rfl,
   stats_mutual_exclusion_truthiness.2.2.1 testCollaborators sampleLoads
     Option.none _ (Value.str "d1") "STATS" rfl rfl rfl rfl rfl,
   stats_mutual_exclusion_truthiness.2.2.2 testCollaborators sampleLoads
     Option.none _ (Value.str "d1") "STATS" rfl rfl rfl rfl rfl⟩

/-- C6: for every known operation with a required parameter missing from
the (normalized) bag, the dispatcher returns the structured error naming
the missing field(s) with a usage hint; each conclusion is independent of
the collaborator record, so no collaborator is invoked. -/
theorem missing_required_parameter_errors :
    (∀ (c : Collaborators) (loads : String → Except String Value)
       (sc : Option String) (params : Params),
       dget params "params" = Option.none →
       dget params "detector_id" = Option.none →
       guardduty_security_operations c loads "list_findings" sc params =
         .ok (.dumped listFindingsDetectorError)) ∧
    (∀ (c : Collaborators) (loads : String → Except String Value)
       (sc : Option String) (params : Params),
       dget params "params" = Option.none →
       dget params "detector_id" = Option.none →
       guardduty_security_operations c loads "list_ip_sets" sc params =
         .ok (.dumped listIpSetsDetectorError)) ∧
    (∀ (c : Collaborators) (loads : String → Except String Value)
       (sc : Option String) (params : Params),
       dget params "params" = Option.none →
       dget params "detector_id" = Option.none →
       guardduty_security_operations c loads "list_threat_intel_sets" sc
         params = .ok (.dumped listThreatIntelSetsDetectorError)) ∧
    (∀ (c : Collaborators) (loads : String → Except String Value)
       (sc : Option String) (params : Params),
       dget params "params" = Option.none →
       dget params "detector_id" = Option.none →
       guardduty_security_operations c loads "get_findings_statistics" sc
         params = .ok (.dumped statsDetectorError)) ∧
    (∀ (c : Collaborators) (loads : String → Except String Value)
       (sc : Option String) (params : Params) (f : Value),
       dget params "params" = Option.none →
       dget params "detector_id" = Option.none →
       dget params "finding_id" = some f →
       guardduty_security_operations c loads "get_finding_details" sc params =
         .ok (.dumped (getFindingDetailsMissingError ["detector_id"]))) ∧
    (∀ (c : Collaborators) (loads : String → Except String Value)
       (sc : Option String) (params : Params) (d : Value),
       dget params "params" = Option.none →
       dget params "detector_id" = some d →
       dget params "finding_id" = Option.none →
       guardduty_security_operations c loads "get_finding_details" sc params =
         .ok (.dumped (getFindingDetailsMissingError ["finding_id"]))) ∧
    (∀ (c : Collaborators) (loads : String → Except String Value)
       (sc : Option String) (params : Params),
       dget params "params" = Option.none →
       dget params "detector_id" = Option.none →
       dget params "finding_id" = Option.none →
       guardduty_security_operations c loads "get_finding_details" sc params =
         .ok (.dumped
           (getFindingDetailsMissingError ["detector_id", "finding_id"]))) := by
  refine ⟨?_, ?_, ?_, ?_, ?_, ?_, ?_⟩
  · intro c loads sc params h1 h2
    rw [guardduty_eq_of_no_nested c loads _ sc params h1, dispatchOperation_eq,
      runOperation_list_findings, h2]
  · intro c loads sc params h1 h2
    rw [guardduty_eq_of_no_nested c loads _ sc params h1, dispatchOperation_eq,
      runOperation_list_ip_sets, h2]
  · intro c loads sc params h1 h2
    rw [guardduty_eq_of_no_nested c loads _ sc params h1, dispatchOperation_eq,
      runOperation_list_threat_intel_sets, h2]
  · intro c loads sc params h1 h2
    rw [guardduty_eq_of_no_nested c loads _ sc params h1, dispatchOperation_eq,
      runOperation_get_findings_statistics, h2]
  · intro c loads sc params f h1 h2 h3
    rw [guardduty_eq_of_no_nested c loads _ sc params h1, dispatchOperation_eq,
      runOperation_get_finding_details]
    simp [dcontains, h2, h3]
  · intro c loads sc params d h1 h2 h3
    rw [guardduty_eq_of_no_nested c loads _ sc params h1, dispatchOperation_eq,
      runOperation_get_finding_details]
    simp [dcontains, h2, h3]
  · intro c loads sc params h1 h2 h3
    rw [guardduty_eq_of_no_nested c loads _ sc params h1, dispatchOperation_eq,
      runOperation_get_finding_details]
    simp [dcontains, h2, h3]

/-- Witness for C6: all seven missing-parameter cases at concrete inputs,
under collaborators that all raise — had any collaborator been invoked the
result would instead be the converted execution error. -/
theorem missing_required_parameter_errors_witness :
    guardduty_security_operations failingCollaborators sampleLoads
      "list_findings" Option.none [] = .ok (.dumped listFindingsDetectorError) ∧
    guardduty_security_operations failingCollaborators sampleLoads
      "list_ip_sets" Option.none [] = .ok (.dumped listIpSetsDetectorError) ∧
    guardduty_security_operations failingCollaborators sampleLoads
      "list_threat_intel_sets" Option.none [] =
      .ok (.dumped listThreatIntelSetsDetectorError) ∧
    guardduty_security_operations failingCollaborators sampleLoads
      "get_findings_statistics" Option.none [] =
      .ok (.dumped statsDetectorError) ∧
    guardduty_security_operations failingCollaborators sampleLoads
      "get_finding_details" Option.none [("finding_id", Value.str "f1")] =
      .ok (.dumped (getFindingDetailsMissingError ["detector_id"])) ∧
    guardduty_security_operations failingCollaborators sampleLoads
      "get_finding_details" Option.none [("detector_id", Value.str "d1")] =
      .ok (.dumped (getFindingDetailsMissingError ["finding_id"])) ∧
    guardduty_security_operations failingCollaborators sampleLoads
      "get_finding_details" Option.none [] =
      .ok (.dumped (getFindingDetailsMissingError ["detector_id", "finding_id"])) :=
  ⟨missing_required_parameter_errors.1 failingCollaborators sampleLoads
     Option.none [] rfl rfl,
   missing_required_parameter_errors.2.1 failingCollaborators sampleLoads
     Option.none [] rfl rfl,
   missing_required_parameter_errors.2.2.1 failingCollaborators sampleLoads
     Option.none [] rfl rfl,
   missing_required_parameter_errors.2.2.2.1 failingCollaborators sampleLoads
     Option.none [] rfl rfl,
   missing_required_parameter_errors.2.2.2.2.1 failingCollaborators sampleLoads
     Option.none [("finding_id", Value.str "f1")] (Value.str "f1") rfl rfl rfl,
   missing_required_parameter_errors.2.2.2.2.2.1 failingCollaborators
     sampleLoads Option.none [("detector_id", Value.str "d1")]
     (Value.str "d1") rfl rfl rfl,
   missing_required_parameter_errors.2.2.2.2.2.2 failingCollaborators
     sampleLoads Option.none [] rfl rfl rfl⟩

/-- C8: when `max_results` is absent from the (normalized) bag the
`list_detectors` collaborator receives `100` and the `list_findings`,
`list_ip_sets` and `list_threat_intel_sets` collaborators receive `50`;
when it is present its value is forwarded unchanged. -/
theorem max_results_defaults_and_forwarding :
    (∀ (c : Collaborators) (loads : String → Except String Value)
       (sc : Option String) (params : Params) (r : String),
       dget params "params" = Option.none →
       dget params "max_results" = Option.none →
       c.list_detectors (Value.int 100) sc = Except.ok r →
       guardduty_security_operations c loads "list_detectors" sc params =
         .ok (.raw r)) ∧
    (∀ (c : Collaborators) (loads : String → Except String Value)
       (sc : Option String) (params : Params) (m : Value) (r : String),
       dget params "params" = Option.none →
       dget params "max_results" = some m →
       c.list_detectors m sc = Except.ok r →
       guardduty_security_operations c loads "list_detectors" sc params =
         .ok (.raw r)) ∧
    (∀ (c : Collaborators) (loads : String → Except String Value)
       (sc : Option String) (params : Params) (d : Value) (r : String),
       dget params "params" = Option.none →
       dget params "detector_id" = some d →
       dget params "max_results" = Option.none →
       c.list_findings d (Value.int 50) (dgetD params "finding_ids" Value.null)
         (dgetD params "severity" Value.null)
         (dgetD params "search_term" Value.null) sc = Except.ok r →
       guardduty_security_operations c loads "list_findings" sc params =
         .ok (.raw r)) ∧
    (∀ (c : Collaborators) (loads : String → Except String Value)
       (sc : Option String) (params : Params) (d m : Value) (r : String),
       dget params "params" = Option.none →
       dget params "detector_id" = some d →
       dget params "max_results" = some m →
       c.list_findings d m (dgetD params "finding_ids" Value.null)
         (dgetD params "severity" Value.null)
         (dgetD params "search_term" Value.null) sc = Except.ok r →
       guardduty_security_operations c loads "list_findings" sc params =
         .ok (.raw r)) ∧
    (∀ (c : Collaborators) (loads : String → Except String Value)
       (sc : Option String) (params : Params) (d : Value) (r : String),
       dget params "params" = Option.none →
       dget params "detector_id" = some d →
       dget params "max_results" = Option.none →
       c.list_ip_sets d (Value.int 50) sc = Except.ok r →
       guardduty_security_operations c loads "list_ip_sets" sc params =
         .ok (.raw r)) ∧
    (∀ (c : Collaborators) (loads : String → Except String Value)
       (sc : Option String) (params : Params) (d m : Value) (r : String),
       dget params "params" = Option.none →
       dget params "detector_id" = some d →
       dget params "max_results" = some m →
       c.list_ip_sets d m sc = Except.ok r →
       guardduty_security_operations c loads "list_ip_sets" sc params =
         .ok (.raw r)) ∧
    (∀ (c : Collaborators) (loads : String → Except String Value)
       (sc : Option String) (params : Params) (d : Value) (r : String),
       dget params "params" = Option.none →
       dget params "detector_id" = some d →
       dget params "max_results" = Option.none →
       c.list_threat_intel_sets d (Value.int 50) sc = Except.ok r →
       guardduty_security_operations c loads "list_threat_intel_sets" sc
         params = .ok (.raw r)) ∧
    (∀ (c : Collaborators) (loads : String → Except String Value)
       (sc : Option String) (params : Params) (d m : Value) (r : String),
       dget params "params" = Option.none →
       dget params "detector_id" = some d →
       dget params "max_results" = some m →
       c.list_threat_intel_sets d m sc = Except.ok r →
       guardduty_security_operations c loads "list_threat_intel_sets" sc
         params = .ok (.raw r)) := by
  refine ⟨?_, ?_, ?_, ?_, ?_, ?_, ?_, ?_⟩
  · intro c loads sc params r h1 h2 h3
    rw [guardduty_eq_of_no_nested c loads _ sc params h1, dispatchOperation_eq,
      runOperation_list_detectors]
    simp [dgetD, h2, h3, Except.map]
  · intro c loads sc params m r h1 h2 h3
    rw [guardduty_eq_of_no_nested c loads _ sc params h1, dispatchOperation_eq,
      runOperation_list_detectors]
    simp [dgetD, h2, h3, Except.map]
  · intro c loads sc params d r h1 h2 h3 h4
    rw [guardduty_eq_of_no_nested c loads _ sc params h1, dispatchOperation_eq,
      runOperation_list_findings, h2]
    simp only [dgetD, h3, Option.getD_none]
    simp only [dgetD] at h4
    rw [h4]
    rfl
  · intro c loads sc params d m r h1 h2 h3 h4
    rw [guardduty_eq_of_no_nested c loads _ sc params h1, dispatchOperation_eq,
      runOperation_list_findings, h2]
    simp only [dgetD, h3, Option.getD_some]
    simp only [dgetD] at h4
    rw [h4]
    rfl
  · intro c loads sc params d r h1 h2 h3 h4
    rw [guardduty_eq_of_no_nested c loads _ sc params h1, dispatchOperation_eq,
      runOperation_list_ip_sets, h2]
    simp [dgetD, h3, h4, Except.map]
  · intro c loads sc params d m r h1 h2 h3 h4
    rw [guardduty_eq_of_no_nested c loads _ sc params h1, dispatchOperation_eq,
      runOperation_list_ip_sets, h2]
    simp [dgetD, h3, h4, Except.map]
  · intro c loads sc params d r h1 h2 h3 h4
    rw [guardduty_eq_of_no_nested c loads _ sc params h1, dispatchOperation_eq,
      runOperation_list_threat_intel_sets, h2]
    simp [dgetD, h3, h4, Except.map]
  · intro c loads sc params d m r h1 h2 h3 h4
    rw [guardduty_eq_of_no_nested c loads _ sc params h1, dispatchOperation_eq,
      runOperation_list_threat_intel_sets, h2]
    simp [dgetD, h3, h4, Except.map]

/-- Witness for C8: the default and forwarded `max_results` in all eight
cases; the `list_ip_sets` spy collaborator makes the received value
observable (`IPSETS_M50` for the default, `IPSETS_M5` for a forwarded
`5`). -/
theorem max_results_defaults_and_forwarding_witness :
    guardduty_security_operations testCollaborators sampleLoads
      "list_detectors" Option.none [] = .ok (.raw "DETECTORS") ∧
    guardduty_security_operations testCollaborators sampleLoads
      "list_detectors" Option.none [("max_results", Value.int 7)] =
      .ok (.raw "DETECTORS") ∧
    guardduty_security_operations testCollaborators sampleLoads
      "list_findings" Option.none [("detector_id", Value.str "d1")] =
      .ok (.raw "FINDINGS") ∧
    guardduty_security_operations testCollaborators sampleLoads
      "list_findings" Option.none
      [("detector_id", Value.str "d1"), ("max_results", Value.int 7)] =
      .ok (.raw "FINDINGS") ∧
    guardduty_security_operations testCollaborators sampleLoads
      "list_ip_sets" Option.none [("detector_id", Value.str "d1")] =
      .ok (.raw "IPSETS_M50") ∧
    guardduty_security_operations testCollaborators sampleLoads
      "list_ip_sets" Option.none
      [("detector_id", Value.str "d1"), ("max_results", Value.int 5)] =
      .ok (.raw "IPSETS_M5") ∧
    guardduty_security_operations testCollaborators sampleLoads
      "list_threat_intel_sets" Option.none [("detector_id", Value.str "d1")] =
      .ok (.raw "TISETS") ∧
    guardduty_security_operations testCollaborators sampleLoads
      "list_threat_intel_sets" Option.none
      [("detector_id", Value.str "d1"), ("max_results", Value.int 7)] =
      .ok (.raw "TISETS") :=
  ⟨max_results_defaults_and_forwarding.1 testCollaborators sampleLoads
     Option.none [] "DETECTORS" rfl rfl rfl,
   max_results_defaults_and_forwarding.2.1 testCollaborators sampleLoads
     Option.none [("max_results", Value.int 7)] (Value.int 7) "DETECTORS"
     rfl rfl rfl,
   max_results_defaults_and_forwarding.2.2.1 testCollaborators sampleLoads
     Option.none [("detector_id", Value.str "d1")] (Value.str "d1") "FINDINGS"
     rfl rfl rfl rfl,
   max_results_defaults_and_forwarding.2.2.2.1 testCollaborators sampleLoads
     Option.none [("detector_id", Value.str "d1"), ("max_results", Value.int 7)]
     (Value.str "d1") (Value.int 7) "FINDINGS" rfl rfl rfl rfl,
   max_results_defaults_and_forwarding.2.2.2.2.1 testCollaborators sampleLoads
     Option.none [("detector_id", Value.str "d1")] (Value.str "d1")
     "IPSETS_M50" rfl rfl rfl rfl,
   max_results_defaults_and_forwarding.2.2.2.2.2.1 testCollaborators
     sampleLoads Option.none
     [("detector_id", Value.str "d1"), ("max_results", Value.int 5)]
     (Value.str "d1") (Value.int 5) "IPSETS_M5" rfl rfl rfl rfl,
   max_results_defaults_and_forwarding.2.2.2.2.2.2.1 testCollaborators
     sampleLoads Option.none [("detector_id", Value.str "d1")]
     (Value.str "d1") "TISETS" rfl rfl rfl rfl,
   max_results_defaults_and_forwarding.2.2.2.2.2.2.2 testCollaborators
     sampleLoads Option.none
     [("detector_id", Value.str "d1"), ("max_results", Value.int 7)]
     (Value.str "d1") (Value.int 7) "TISETS" rfl rfl rfl rfl⟩

/-- C9: `discover_guardduty_operations` takes no arguments (its only
parameter marks an invocation), performs nothing fallible — every
invocation returns the serialization of the static catalog — and that
catalog's `"operations"` member holds exactly six entries whose names are
exactly the six operation names handled by the dispatcher's branches. -/
theorem discovery_catalog_contents :
    operationsCatalog.field "operations" = some (Value.dict catalogOperations) ∧
    catalogOperations.map Prod.fst = availableOperations ∧
    availableOperations.length = 6 ∧
    (∀ u : Unit, discover_guardduty_operations u = dumpValue 2 0 operationsCatalog) :=
  ⟨rfl, rfl, rfl, fun _ => rfl⟩

/-- C10: `discover_guardduty_operations` is deterministic — any two
invocations return identical text.  The embedded function is pure: the
catalog is a fixed literal structure and the serialization a fixed
function of it (in CPython, dict iteration order is insertion order and
`json.dumps` is deterministic, so the source shares this property). -/
theorem discovery_deterministic :
    ∀ u v : Unit,
      discover_guardduty_operations u = discover_guardduty_operations v :=
  fun _ _ => rfl

end GuardDutyWrapper
